import Mathlib

/-!
Verification development for the MPC-CBF obstacle-avoidance controller
(`mpc_cbf.py`, primary implementation, and `mpc-cbf.py`, the legacy
near-duplicate variant).

Shallow embedding conventions:
* The numeric scalars are modelled as rationals (the source works with
  ideal real arithmetic through casadi/numpy; none of the properties
  verified here depends on rounding).
* The trigonometric primitives `cos`/`sin` used by the source are kept
  abstract as a `Trig` structure of functions: none of the verified
  properties depends on a trigonometric identity, and this keeps every
  definition computable so that concrete instances can be evaluated.
* Symbolic casadi expressions over the model state `model.x['x']` and
  input `model.u['u']` are embedded as Lean functions of the state
  vector (`Fin 3 → ℚ`) and input vector (`Fin 2 → ℚ`).
* The do-mpc collaborators (solver, simulator, estimator objects) are
  external; where the closed loop invokes their `make_step` methods the
  embedding is parametric over those step functions.
-/

namespace MpcCbf

/-- Abstract trigonometric primitives (casadi `cos` and `sin`). -/
structure Trig where
  cos : ℚ → ℚ
  sin : ℚ → ℚ

/-- The regularization constant `a = 1e-9` of `get_sys_matrix_B`
(`mpc_cbf.py` line 77): a small positive constant making the system
relative degree 1. -/
def a : ℚ := 1 / 1000000000

/-- An obstacle `(x_obs, y_obs, r_obs)` as used by `config.obs`. -/
abbrev Obstacle := ℚ × ℚ × ℚ

/-- A scalar constraint expression, symbolic in the model state and input. -/
abbrev ConsExpr := (Fin 3 → ℚ) → (Fin 2 → ℚ) → ℚ

/-- `get_sys_matrix_B` (`mpc_cbf.py` lines 69-84): the 3×2 input matrix
`B(θ)`; the entry `B[2,0]` is left at its `SX.zeros` value `0`. -/
def get_sys_matrix_B (T : Trig) (x : Fin 3 → ℚ) : Fin 3 → Fin 2 → ℚ :=
  ![![T.cos (x 2), -a * T.sin (x 2)],
    ![T.sin (x 2), a * T.cos (x 2)],
    ![0, 1]]

/-- The model right-hand side set by `define_model` (`mpc_cbf.py` lines
51-55): `x_next = _x + B @ _u * Ts`, with the matrix-vector product
written out over the two input components. -/
def model_rhs (T : Trig) (Ts : ℚ) (x : Fin 3 → ℚ) (u : Fin 2 → ℚ) : Fin 3 → ℚ :=
  fun i => x i + (get_sys_matrix_B T x i 0 * u 0 + get_sys_matrix_B T x i 1 * u 1) * Ts

/-- The one-step-ahead state `x_k1` built inside `get_cbf_constraints`
(`mpc_cbf.py` lines 201-203): `x_k1 = model.x + B @ model.u * Ts` with
`B = get_sys_matrix_B(model.x)`. -/
def cbf_x_k1 (T : Trig) (Ts : ℚ) (x : Fin 3 → ℚ) (u : Fin 2 → ℚ) : Fin 3 → ℚ :=
  fun i => x i + (get_sys_matrix_B T x i 0 * u 0 + get_sys_matrix_B T x i 1 * u 1) * Ts

/-- The control barrier function `h` (`mpc_cbf.py` lines 214-225):
`h(x, obstacle) = (x[0]-x_obs)^2 + (x[1]-y_obs)^2 - (r + r_obs)^2`
where `r` is the robot radius. -/
def h (r : ℚ) (x : Fin 3 → ℚ) (obstacle : Obstacle) : ℚ :=
  (x 0 - obstacle.1)^2 + (x 1 - obstacle.2.1)^2 - (r + obstacle.2.2)^2

/-- The CBF constraint expression appended for one obstacle inside the
loop of `get_cbf_constraints` (`mpc_cbf.py` line 210):
`-h(x_k1, obs) + (1 - gamma) * h(x_k, obs)`. -/
def cbf_cons_expr (T : Trig) (Ts gamma r : ℚ) (o : Obstacle) : ConsExpr :=
  fun x u => -(h r (cbf_x_k1 T Ts x u) o) + (1 - gamma) * h r x o

/-- `get_cbf_constraints` (`mpc_cbf.py` lines 195-212): one CBF constraint
expression per configured obstacle, in configuration order. -/
def get_cbf_constraints (T : Trig) (Ts gamma r : ℚ) (obsList : List Obstacle) :
    List ConsExpr :=
  obsList.map (fun o => cbf_cons_expr T Ts gamma r o)

/-- The MPC-DC avoidance expression built for one obstacle inside
`add_obstacle_constraints` (`mpc_cbf.py` lines 170-173):
`-(x[0]-x_obs)^2 - (x[1]-y_obs)^2 + (r + r_obs)^2`; it does not mention
the input. -/
def obs_avoid_expr (r : ℚ) (o : Obstacle) : ConsExpr :=
  fun x _u => -(x 0 - o.1)^2 - (x 1 - o.2.1)^2 + (r + o.2.2)^2

/-- `add_obstacle_constraints` (`mpc_cbf.py` lines 161-177): one direct
avoidance constraint per configured obstacle. -/
def add_obstacle_constraints (r : ℚ) (obsList : List Obstacle) : List ConsExpr :=
  obsList.map (fun o => obs_avoid_expr r o)

/-- The safety-constraint block of `define_mpc` (`mpc_cbf.py` lines
144-151): constraints are added only when `obstacles_on`, the MPC-DC
branch when `config.controller == "MPC-DC"`, the CBF branch otherwise;
with obstacles off, no safety constraint is contributed. Every listed
expression is registered with upper bound 0 (`set_nl_cons(..., ub=0)`). -/
def define_mpc_safety_cons (T : Trig) (obstacles_on : Bool) (controller : String)
    (Ts gamma r : ℚ) (obsList : List Obstacle) : List ConsExpr :=
  if obstacles_on then
    if controller = "MPC-DC" then add_obstacle_constraints r obsList
    else get_cbf_constraints T Ts gamma r obsList
  else []

/-- Legacy variant (`mpc-cbf.py` lines 18-21): the attribute `self.obs`
is assigned only when `obstacles_on`; reading it otherwise is an
`AttributeError`. -/
def legacy_obs_attr (obstacles_on : Bool) (cfg_obs : List Obstacle) :
    Option (List Obstacle) :=
  if obstacles_on then some cfg_obs else none

/-- Legacy `B` matrix rebuilt inline inside `define_mpc`
(`mpc-cbf.py` lines 127-133), with its own local `a = 1e-9`. -/
def legacy_inline_B (T : Trig) (x : Fin 3 → ℚ) : Fin 3 → Fin 2 → ℚ :=
  ![![T.cos (x 2), -a * T.sin (x 2)],
    ![T.sin (x 2), a * T.cos (x 2)],
    ![0, 1]]

/-- The CBF-constraint block of the legacy `define_mpc`
(`mpc-cbf.py` lines 126-139): the constraint is built unconditionally;
`self.h` reads `self.obs[0]`, so assembly fails with an `AttributeError`
when obstacles are disabled (`self.obs` unset) and with an `IndexError`
when the obstacle list is empty. -/
def legacy_define_mpc_cbf_cons (T : Trig) (obstacles_on : Bool)
    (Ts gamma r : ℚ) (cfg_obs : List Obstacle) : Except String ConsExpr :=
  match legacy_obs_attr obstacles_on cfg_obs with
  | none => Except.error "AttributeError: MPC object has no attribute obs"
  | some obsList =>
    match obsList.head? with
    | none => Except.error "IndexError: list index out of range"
    | some o => Except.ok (fun x u =>
        -(h r (fun i => x i + (legacy_inline_B T x i 0 * u 0 +
                               legacy_inline_B T x i 1 * u 1) * Ts) o)
        + (1 - gamma) * h r x o)

/-- The reference point computed by `tvp_fun_mpc` inside
`set_tvp_for_mpc` (`mpc_cbf.py` lines 238-245): the circular family for
`trajectory == "circular"`, the lemniscate family for every other
trajectory string (the `else` branch). -/
def traj_point (T : Trig) (A w : ℚ) (trajectory : String) (t_now : ℚ) : ℚ × ℚ :=
  if trajectory = "circular" then
    (A * T.cos (w * t_now), A * T.sin (w * t_now))
  else
    (A * T.cos (w * t_now) / ((T.sin (w * t_now))^2 + 1),
     A * T.sin (w * t_now) * T.cos (w * t_now) / ((T.sin (w * t_now))^2 + 1))

/-- `tvp_fun_mpc` (`mpc_cbf.py` lines 238-249): the slice assignment
`tvp_struct_mpc['_tvp', :, ...]` writes the same reference point into
every horizon step, so the per-step reference is constant in the step
index. -/
def tvp_fun_mpc (T : Trig) (A w : ℚ) (trajectory : String) (t_now : ℚ) :
    ℕ → ℚ × ℚ :=
  fun _k => traj_point T A w trajectory t_now

/-- Legacy `tvp_fun_mpc` (`mpc-cbf.py` lines 165-173): only the circular
branch exists; for any other trajectory string `x_traj` is unbound and
the first evaluation raises a `NameError` (modelled as `none`). -/
def legacy_tvp_fun_mpc (T : Trig) (A w : ℚ) (trajectory : String) (t_now : ℚ) :
    Option (ℕ → ℚ × ℚ) :=
  if trajectory = "circular" then
    some (fun _k => (A * T.cos (w * t_now), A * T.sin (w * t_now)))
  else none

/-- The simulator tvp function of `define_simulator`
(`mpc_cbf.py` lines 265-269): it returns the unmodified default template
for every time. -/
def simulator_tvp_fun (template : ℚ × ℚ) (_t_now : ℚ) : ℚ × ℚ := template

/-- The state propagation performed by the simulator: the model
right-hand side of line 54 instantiated with the simulator tvp values in
scope; the expression does not mention the tvp variables
`x_set_point`/`y_set_point`, only the state, the input and `Ts`. -/
def simulator_rhs (T : Trig) (Ts : ℚ) (x : Fin 3 → ℚ) (u : Fin 2 → ℚ)
    (_tvp : ℚ × ℚ) : Fin 3 → ℚ :=
  fun i => x i + (get_sys_matrix_B T x i 0 * u 0 + get_sys_matrix_B T x i 1 * u 1) * Ts

/-- One record of the closed loop: the estimated state handed to the
controller, the applied input, the simulator output and the estimator
output of one cycle. -/
structure CycleRec (σ ι μ : Type) where
  x_prev : σ
  u0 : ι
  y_next : μ
  x_next : σ
  deriving DecidableEq, Repr

/-- `run_simulation` (`mpc_cbf.py` lines 282-288): the loop
`for k in range(sim_time)` with body `u0 = mpc.make_step(x0)`;
`y_next = simulator.make_step(u0)`; `x0 = estimator.make_step(y_next)`.
The do-mpc components are external stateful collaborators, so their
`make_step` methods are parameters indexed by the absolute cycle number
`k`; `n` is the number of cycles still to run. The returned trace holds
one record per executed cycle, in execution order. -/
def run_simulation {σ ι μ : Type} (mpc_make_step : ℕ → σ → ι)
    (sim_make_step : ℕ → ι → μ) (est_make_step : ℕ → μ → σ) :
    (n : ℕ) → (k : ℕ) → (x0 : σ) → List (CycleRec σ ι μ)
  | 0, _, _ => []
  | n+1, k, x0 =>
    let u0 := mpc_make_step k x0
    let y_next := sim_make_step k u0
    let x_next := est_make_step k y_next
    ⟨x0, u0, y_next, x_next⟩ ::
      run_simulation mpc_make_step sim_make_step est_make_step n (k+1) x_next

/-- Trig instance whose values coincide with `cos`/`sin` at angle `0`;
used to evaluate the embedding on concrete states with heading `0`. -/
def trigAtZero : Trig := ⟨fun _ => 1, fun _ => 0⟩

/-- Trig instance whose values coincide with `cos`/`sin` at a right
angle; used to evaluate the trajectory families at a quarter period. -/
def trigAtRight : Trig := ⟨fun _ => 0, fun _ => 1⟩

/-- Shared helper: the one-step-ahead state of the CBF generator is the
model right-hand side. -/
lemma cbf_x_k1_eq_model_rhs (T : Trig) (Ts : ℚ) (x : Fin 3 → ℚ)
    (u : Fin 2 → ℚ) : cbf_x_k1 T Ts x u = model_rhs T Ts x u := rfl

/-- C4: Kinematic model transition map. The discrete next state set by
`define_model` is `x⁺ = x + B(θ)·u·Ts` where `B(θ)` has rows
`[cosθ, -a·sinθ]`, `[sinθ, a·cosθ]`, `[0, 1]`, and the regularization
constant `a` is positive. (Purity is immediate: `model_rhs` is a total
function of its arguments.) -/
theorem c4_kinematic_model_transition : (0:ℚ) < a ∧
    ∀ (T : Trig) (Ts : ℚ) (x : Fin 3 → ℚ) (u : Fin 2 → ℚ),
      get_sys_matrix_B T x 0 0 = T.cos (x 2) ∧
      get_sys_matrix_B T x 0 1 = -a * T.sin (x 2) ∧
      get_sys_matrix_B T x 1 0 = T.sin (x 2) ∧
      get_sys_matrix_B T x 1 1 = a * T.cos (x 2) ∧
      get_sys_matrix_B T x 2 0 = 0 ∧
      get_sys_matrix_B T x 2 1 = 1 ∧
      model_rhs T Ts x u = fun i =>
        x i + (get_sys_matrix_B T x i 0 * u 0 + get_sys_matrix_B T x i 1 * u 1) * Ts := by
  refine ⟨by norm_num [a], fun T Ts x u => ?_⟩
  refine ⟨rfl, rfl, rfl, rfl, rfl, rfl, rfl⟩

/-- C5: No divergent duplication of the dynamics. The one-step-ahead
state used inside `get_cbf_constraints` coincides, as a function of the
symbolic state and input, with the right-hand side set for the model's
own state update; the `B` matrix rebuilt inline by the legacy variant's
`define_mpc` also coincides with `get_sys_matrix_B`. -/
theorem c5_no_divergent_dynamics :
    (∀ (T : Trig) (Ts : ℚ) (x : Fin 3 → ℚ) (u : Fin 2 → ℚ),
      cbf_x_k1 T Ts x u = model_rhs T Ts x u) ∧
    (∀ (T : Trig) (x : Fin 3 → ℚ), legacy_inline_B T x = get_sys_matrix_B T x) :=
  ⟨fun T Ts x u => cbf_x_k1_eq_model_rhs T Ts x u, fun _ _ => rfl⟩

/-- C7: Reference held fixed across the horizon. In trajectory-tracking
mode with the circular family, the tvp function yields, at every horizon
step index `k`, the trajectory evaluated at the current time
`(A·cos(w·t_now), A·sin(w·t_now))`; for any trajectory family the
reference is not advanced per horizon step (it is constant in `k`). -/
theorem c7_reference_fixed_across_horizon :
    (∀ (T : Trig) (A w t_now : ℚ) (k : ℕ),
      tvp_fun_mpc T A w "circular" t_now k =
        (A * T.cos (w * t_now), A * T.sin (w * t_now))) ∧
    (∀ (T : Trig) (A w t_now : ℚ) (trajectory : String) (k : ℕ),
      tvp_fun_mpc T A w trajectory t_now k = tvp_fun_mpc T A w trajectory t_now 0) := by
  constructor
  · intro T A w t_now k
    simp [tvp_fun_mpc, traj_point]
  · intro T A w t_now trajectory k
    rfl

/-- C10: Simulator independence from the reference. The simulator's
propagation map returns the same next state under any two assignments of
the time-varying reference, it equals the model right-hand side, and the
simulator tvp function returns the unmodified default template for every
time: the reference influences only the cost, never the simulated
dynamics. -/
theorem c10_simulator_reference_independence :
    (∀ (T : Trig) (Ts : ℚ) (x : Fin 3 → ℚ) (u : Fin 2 → ℚ) (tvp tvp' : ℚ × ℚ),
      simulator_rhs T Ts x u tvp = simulator_rhs T Ts x u tvp') ∧
    (∀ (T : Trig) (Ts : ℚ) (x : Fin 3 → ℚ) (u : Fin 2 → ℚ) (tvp : ℚ × ℚ),
      simulator_rhs T Ts x u tvp = model_rhs T Ts x u) ∧
    (∀ (template : ℚ × ℚ) (t : ℚ), simulator_tvp_fun template t = template) :=
  ⟨fun _ _ _ _ _ _ => rfl, fun _ _ _ _ _ => rfl, fun _ _ => rfl⟩

/-- C2: CBF constraint construction. `get_cbf_constraints` produces
exactly one constraint per configured obstacle (length equality, so
never fewer), the `i`-th constraint being the expression
`-h(x_{k+1}) + (1-γ)·h(x_k)` (registered with upper bound 0) for the
`i`-th obstacle, where `x_{k+1}` is the discrete kinematic model applied
to the symbolic current state and input. -/
theorem c2_one_constraint_per_obstacle (T : Trig) (Ts gamma r : ℚ)
    (obsList : List Obstacle) :
    (get_cbf_constraints T Ts gamma r obsList).length = obsList.length ∧
    ∀ (i : ℕ) (o : Obstacle), obsList[i]? = some o →
      (get_cbf_constraints T Ts gamma r obsList)[i]? =
        some (cbf_cons_expr T Ts gamma r o) ∧
      ∀ (x : Fin 3 → ℚ) (u : Fin 2 → ℚ),
        cbf_cons_expr T Ts gamma r o x u =
          -(h r (model_rhs T Ts x u) o) + (1 - gamma) * h r x o := by
  refine ⟨by simp [get_cbf_constraints], ?_⟩
  intro i o hi
  refine ⟨?_, fun x u => rfl⟩
  simp [get_cbf_constraints, hi]

/-- Witness for C2 at one concrete obstacle list, index, state and
input. -/
theorem c2_one_constraint_per_obstacle_witness :
    (get_cbf_constraints trigAtZero 1 (1/2) 1 [((0:ℚ), (0:ℚ), (1:ℚ))]).length = 1 ∧
    (get_cbf_constraints trigAtZero 1 (1/2) 1 [((0:ℚ), (0:ℚ), (1:ℚ))])[0]? =
      some (cbf_cons_expr trigAtZero 1 (1/2) 1 ((0:ℚ), (0:ℚ), (1:ℚ))) ∧
    cbf_cons_expr trigAtZero 1 (1/2) 1 ((0:ℚ), (0:ℚ), (1:ℚ)) ![10,0,0] ![-1,0] =
      -(h 1 (model_rhs trigAtZero 1 ![10,0,0] ![-1,0]) ((0:ℚ), (0:ℚ), (1:ℚ)))
        + (1 - 1/2) * h 1 ![10,0,0] ((0:ℚ), (0:ℚ), (1:ℚ)) := by
  have H := c2_one_constraint_per_obstacle trigAtZero 1 (1/2) 1
    [((0:ℚ), (0:ℚ), (1:ℚ))]
  have H2 := H.2 0 ((0:ℚ), (0:ℚ), (1:ℚ)) rfl
  exact ⟨H.1, H2.1, H2.2 ![10,0,0] ![-1,0]⟩

/-- C1 counterexample: the claimed decay bound `h(x_{k+1}) ≥ γ·h(x_k)`
fails on the generated constraint. At `γ = 9/10`, obstacle `(0,0,1)`,
robot radius `1`, `Ts = 1`, heading `0`, state `(10,0,0)` and input
`(-5,0)`: the initial state is safe (`h = 96 ≥ 0`), the generated
constraint is satisfied (`-21 + (1/10)·96 = -57/5 ≤ 0`), but
`h(x_{k+1}) = 21 < γ·h(x_k) = 432/5`. -/
theorem c1_gamma_decay_counterexample :
    (0:ℚ) < 9/10 ∧ (9/10:ℚ) ≤ 1 ∧
    0 ≤ h 1 ![10,0,0] ((0:ℚ), (0:ℚ), (1:ℚ)) ∧
    get_cbf_constraints trigAtZero 1 (9/10) 1 [((0:ℚ), (0:ℚ), (1:ℚ))] =
      [cbf_cons_expr trigAtZero 1 (9/10) 1 ((0:ℚ), (0:ℚ), (1:ℚ))] ∧
    cbf_cons_expr trigAtZero 1 (9/10) 1 ((0:ℚ), (0:ℚ), (1:ℚ)) ![10,0,0] ![-5,0] ≤ 0 ∧
    ¬ ((9/10) * h 1 ![10,0,0] ((0:ℚ), (0:ℚ), (1:ℚ)) ≤
        h 1 (cbf_x_k1 trigAtZero 1 ![10,0,0] ![-5,0]) ((0:ℚ), (0:ℚ), (1:ℚ))) := by
  refine ⟨by norm_num, by norm_num, by norm_num [h, cbf_cons_expr, cbf_x_k1, get_sys_matrix_B, obs_avoid_expr, trigAtZero, a, Matrix.cons_val_zero, Matrix.cons_val_one, Matrix.head_cons, Matrix.cons_val_two, Matrix.tail_cons], rfl, by norm_num [h, cbf_cons_expr, cbf_x_k1, get_sys_matrix_B, obs_avoid_expr, trigAtZero, a, Matrix.cons_val_zero, Matrix.cons_val_one, Matrix.head_cons, Matrix.cons_val_two, Matrix.tail_cons], by norm_num [h, cbf_cons_expr, cbf_x_k1, get_sys_matrix_B, obs_avoid_expr, trigAtZero, a, Matrix.cons_val_zero, Matrix.cons_val_one, Matrix.head_cons, Matrix.cons_val_two, Matrix.tail_cons]⟩

/-- C1 (amended): Barrier forward invariance with the decay factor
`(1-γ)` actually imposed by the code. For every configured obstacle, if
`h(x_k) ≥ 0` and `γ ∈ (0,1]`, then any `(x_k, u_k)` satisfying the
generated CBF constraint `-h(x_{k+1}) + (1-γ)·h(x_k) ≤ 0` has
`h(x_{k+1}) ≥ (1-γ)·h(x_k) ≥ 0`, so the safe set `{h ≥ 0}` is never
exited when the initial state is safe. -/
theorem c1_barrier_forward_invariance (T : Trig) (Ts gamma r : ℚ)
    (obsList : List Obstacle) (o : Obstacle) (x : Fin 3 → ℚ) (u : Fin 2 → ℚ)
    (ho : o ∈ obsList) (hg0 : 0 < gamma) (hg1 : gamma ≤ 1)
    (hsafe : 0 ≤ h r x o)
    (hcon : cbf_cons_expr T Ts gamma r o x u ≤ 0) :
    cbf_cons_expr T Ts gamma r o ∈ get_cbf_constraints T Ts gamma r obsList ∧
    (1 - gamma) * h r x o ≤ h r (cbf_x_k1 T Ts x u) o ∧
    0 ≤ (1 - gamma) * h r x o ∧
    0 ≤ h r (cbf_x_k1 T Ts x u) o := by
  have hmem : cbf_cons_expr T Ts gamma r o ∈ get_cbf_constraints T Ts gamma r obsList :=
    List.mem_map_of_mem _ ho
  have hineq : (1 - gamma) * h r x o ≤ h r (cbf_x_k1 T Ts x u) o := by
    simp only [cbf_cons_expr] at hcon
    linarith
  have hnn : 0 ≤ (1 - gamma) * h r x o := mul_nonneg (by linarith) hsafe
  exact ⟨hmem, hineq, hnn, le_trans hnn hineq⟩

/-- Witness for the amended C1 at `γ = 1/2`, obstacle `(0,0,1)`, state
`(10,0,0)`, input `(-1,0)`. -/
theorem c1_barrier_forward_invariance_witness :
    cbf_cons_expr trigAtZero 1 (1/2) 1 ((0:ℚ), (0:ℚ), (1:ℚ)) ∈
      get_cbf_constraints trigAtZero 1 (1/2) 1 [((0:ℚ), (0:ℚ), (1:ℚ))] ∧
    (1 - 1/2) * h 1 ![10,0,0] ((0:ℚ), (0:ℚ), (1:ℚ)) ≤
      h 1 (cbf_x_k1 trigAtZero 1 ![10,0,0] ![-1,0]) ((0:ℚ), (0:ℚ), (1:ℚ)) ∧
    0 ≤ (1 - 1/2) * h 1 ![10,0,0] ((0:ℚ), (0:ℚ), (1:ℚ)) ∧
    0 ≤ h 1 (cbf_x_k1 trigAtZero 1 ![10,0,0] ![-1,0]) ((0:ℚ), (0:ℚ), (1:ℚ)) :=
  c1_barrier_forward_invariance trigAtZero 1 (1/2) 1 [((0:ℚ), (0:ℚ), (1:ℚ))]
    ((0:ℚ), (0:ℚ), (1:ℚ)) ![10,0,0] ![-1,0]
    (by simp) (by norm_num) (by norm_num) (by norm_num [h, cbf_cons_expr, cbf_x_k1, get_sys_matrix_B, obs_avoid_expr, trigAtZero, a, Matrix.cons_val_zero, Matrix.cons_val_one, Matrix.head_cons, Matrix.cons_val_two, Matrix.tail_cons]) (by norm_num [h, cbf_cons_expr, cbf_x_k1, get_sys_matrix_B, obs_avoid_expr, trigAtZero, a, Matrix.cons_val_zero, Matrix.cons_val_one, Matrix.head_cons, Matrix.cons_val_two, Matrix.tail_cons])

/-- C3: No-obstacle pass-through. With obstacles disabled the primary
`define_mpc` contributes zero safety constraints (no failure, no
warning), for either controller choice; the legacy variant, by contrast,
builds its CBF constraint unconditionally and its assembly fails with an
`AttributeError` because `self.obs` was never assigned. -/
theorem c3_no_obstacle_passthrough (T : Trig) (controller : String)
    (Ts gamma r : ℚ) (obsList : List Obstacle) :
    define_mpc_safety_cons T false controller Ts gamma r obsList = [] ∧
    legacy_define_mpc_cbf_cons T false Ts gamma r obsList =
      Except.error "AttributeError: MPC object has no attribute obs" :=
  ⟨rfl, rfl⟩

/-- C6 counterexample: at `γ = 0` the generated constraint is NOT
equivalent to the direct formulation's clearance requirement at the
one-step-ahead state. With obstacle `(0,0,1)`, robot radius `1`,
`Ts = 1`, heading `0`, state `(10,0,0)` and input `(-5,0)`: the next
state `(5,0,0)` satisfies the direct clearance (`-21 ≤ 0`), but the
`γ = 0` constraint evaluates to `-21 + 96 = 75 > 0`. -/
theorem c6_gamma_zero_counterexample :
    get_cbf_constraints trigAtZero 1 0 1 [((0:ℚ), (0:ℚ), (1:ℚ))] =
      [cbf_cons_expr trigAtZero 1 0 1 ((0:ℚ), (0:ℚ), (1:ℚ))] ∧
    ¬ (cbf_cons_expr trigAtZero 1 0 1 ((0:ℚ), (0:ℚ), (1:ℚ)) ![10,0,0] ![-5,0] ≤ 0 ↔
        obs_avoid_expr 1 ((0:ℚ), (0:ℚ), (1:ℚ))
          (cbf_x_k1 trigAtZero 1 ![10,0,0] ![-5,0]) ![-5,0] ≤ 0) :=
  ⟨rfl, by norm_num [h, cbf_cons_expr, cbf_x_k1, get_sys_matrix_B, obs_avoid_expr, trigAtZero, a, Matrix.cons_val_zero, Matrix.cons_val_one, Matrix.head_cons, Matrix.cons_val_two, Matrix.tail_cons]⟩

/-- C6 (amended): Direct-constraint equivalence boundary at `γ = 1`. At
`γ = 1` (not `γ = 0`) the generated constraint degenerates to requiring
`h(x_{k+1}) ≥ 0` exactly: a pair `(x_k, u_k)` satisfies it if and only
if the one-step-ahead state satisfies the direct formulation's clearance
requirement. (At `γ = 0` the constraint instead requires
`h(x_{k+1}) ≥ h(x_k)`.) -/
theorem c6_gamma_one_direct_equivalence (T : Trig) (Ts r : ℚ) (o : Obstacle) :
    get_cbf_constraints T Ts 1 r [o] = [cbf_cons_expr T Ts 1 r o] ∧
    add_obstacle_constraints r [o] = [obs_avoid_expr r o] ∧
    ∀ (x : Fin 3 → ℚ) (u : Fin 2 → ℚ),
      (cbf_cons_expr T Ts 1 r o x u ≤ 0 ↔
        obs_avoid_expr r o (cbf_x_k1 T Ts x u) u ≤ 0) := by
  refine ⟨rfl, rfl, fun x u => ?_⟩
  have key : cbf_cons_expr T Ts 1 r o x u = obs_avoid_expr r o (cbf_x_k1 T Ts x u) u := by
    simp only [cbf_cons_expr, obs_avoid_expr, h]
    ring
  rw [key]

/-- C8 counterexample: an unknown trajectory type is not detected and
does not abort. With the trajectory string `"spline"` (outside the
supported families) the primary tvp function silently returns the
lemniscate reference point — here `(0,0)` (with trig values of a quarter
period), a genuine trajectory point distinct from the circular value
`(0,1)` — instead of raising a configuration error; the legacy variant
fails only at first tvp evaluation (an unbound-name error, modelled as
`none`), not at assembly time, and not as a `ConfigurationError`. -/
theorem c8_unknown_trajectory_counterexample :
    tvp_fun_mpc trigAtRight 1 1 "spline" 1 0 = (0, 0) ∧
    traj_point trigAtRight 1 1 "circular" 1 = (0, 1) ∧
    legacy_tvp_fun_mpc trigAtRight 1 1 "spline" 1 = none := by
  have hne : ("spline" : String) ≠ "circular" := by decide
  refine ⟨?_, ?_, by simp [legacy_tvp_fun_mpc, hne]⟩ <;>
    norm_num [tvp_fun_mpc, traj_point, trigAtRight, hne]

/-- C8 (amended): for every run configured with a trajectory type other
than `"circular"`, the primary tvp function silently selects the
lemniscate (figure-eight) family — the `else` branch — for every horizon
step, with no error; the legacy variant yields no reference at all
(`NameError` at first evaluation). No unknown-trajectory configuration
error exists at assembly time. -/
theorem c8_unknown_trajectory_fallback (T : Trig) (A w t_now : ℚ)
    (trajectory : String) (k : ℕ) (hne : trajectory ≠ "circular") :
    tvp_fun_mpc T A w trajectory t_now k =
      (A * T.cos (w * t_now) / ((T.sin (w * t_now))^2 + 1),
       A * T.sin (w * t_now) * T.cos (w * t_now) / ((T.sin (w * t_now))^2 + 1)) ∧
    legacy_tvp_fun_mpc T A w trajectory t_now = none := by
  constructor
  · simp [tvp_fun_mpc, traj_point, hne]
  · simp [legacy_tvp_fun_mpc, hne]

/-- Witness for the amended C8 at the trajectory string `"spline"`. -/
theorem c8_unknown_trajectory_fallback_witness :
    tvp_fun_mpc trigAtRight 1 1 "spline" 1 0 =
      (1 * trigAtRight.cos (1 * 1) / ((trigAtRight.sin (1 * 1))^2 + 1),
       1 * trigAtRight.sin (1 * 1) * trigAtRight.cos (1 * 1) /
         ((trigAtRight.sin (1 * 1))^2 + 1)) ∧
    legacy_tvp_fun_mpc trigAtRight 1 1 "spline" 1 = none :=
  c8_unknown_trajectory_fallback trigAtRight 1 1 1 "spline" 0 (by decide)

/-- Shared helper: the closed-loop trace has exactly one record per
requested cycle. -/
lemma run_simulation_length {σ ι μ : Type} (fC : ℕ → σ → ι) (fS : ℕ → ι → μ)
    (fE : ℕ → μ → σ) (n k : ℕ) (x0 : σ) :
    (run_simulation fC fS fE n k x0).length = n := by
  induction n generalizing k x0 with
  | zero => rfl
  | succ n ih => simp [run_simulation, ih]

/-- Shared helper: the first record of a nonempty trace starts from the
seeded state. -/
lemma run_simulation_head {σ ι μ : Type} (fC : ℕ → σ → ι) (fS : ℕ → ι → μ)
    (fE : ℕ → μ → σ) (n k : ℕ) (x0 : σ) (r : CycleRec σ ι μ)
    (hr : (run_simulation fC fS fE n k x0)[0]? = some r) : r.x_prev = x0 := by
  cases n with
  | zero => simp [run_simulation] at hr
  | succ n =>
    simp only [run_simulation, List.getElem?_cons_zero, Option.some.injEq] at hr
    subst hr
    rfl

/-- Shared helper: every record of the trace is produced by solve →
apply → simulate → estimate at its cycle index. -/
lemma run_simulation_fields {σ ι μ : Type} (fC : ℕ → σ → ι) (fS : ℕ → ι → μ)
    (fE : ℕ → μ → σ) (n : ℕ) : ∀ (k : ℕ) (x0 : σ) (i : ℕ) (r : CycleRec σ ι μ),
    (run_simulation fC fS fE n k x0)[i]? = some r →
      r.u0 = fC (k + i) r.x_prev ∧ r.y_next = fS (k + i) r.u0 ∧
      r.x_next = fE (k + i) r.y_next := by
  induction n with
  | zero => intro k x0 i r hr; simp [run_simulation] at hr
  | succ n ih =>
    intro k x0 i r hr
    cases i with
    | zero =>
      simp only [run_simulation, List.getElem?_cons_zero, Option.some.injEq] at hr
      subst hr
      exact ⟨rfl, rfl, rfl⟩
    | succ i =>
      simp only [run_simulation, List.getElem?_cons_succ] at hr
      have := ih (k + 1) _ i r hr
      have harith : k + 1 + i = k + (i + 1) := by omega
      rw [harith] at this
      exact this

/-- Shared helper: consecutive trace records are chained through the
estimator output. -/
lemma run_simulation_chain {σ ι μ : Type} (fC : ℕ → σ → ι) (fS : ℕ → ι → μ)
    (fE : ℕ → μ → σ) (n : ℕ) : ∀ (k : ℕ) (x0 : σ) (i : ℕ) (r r' : CycleRec σ ι μ),
    (run_simulation fC fS fE n k x0)[i]? = some r →
    (run_simulation fC fS fE n k x0)[i + 1]? = some r' → r'.x_prev = r.x_next := by
  induction n with
  | zero => intro k x0 i r r' hr _; simp [run_simulation] at hr
  | succ n ih =>
    intro k x0 i r r' hr hr'
    cases i with
    | zero =>
      simp only [run_simulation, List.getElem?_cons_zero, Option.some.injEq] at hr
      simp only [run_simulation, List.getElem?_cons_succ] at hr'
      subst hr
      exact run_simulation_head fC fS fE n (k + 1) _ r' hr'
    | succ i =>
      simp only [run_simulation, List.getElem?_cons_succ] at hr hr'
      exact ih (k + 1) _ i r r' hr hr'

/-- C9: Closed-loop cycle structure. `run_simulation` executes exactly
`sim_time` cycles (trace length equals the requested cycle count, with
no early exit in the embedding of the loop body); in each cycle the
controller is invoked on the current estimated state, its returned input
is passed to the simulator, the simulator output is passed to the
estimator, and the estimator output is the state the controller receives
in the next cycle; the first cycle starts from the seeded state. -/
theorem c9_closed_loop_cycle_structure {σ ι μ : Type} (fC : ℕ → σ → ι)
    (fS : ℕ → ι → μ) (fE : ℕ → μ → σ) (n k : ℕ) (x0 : σ) :
    (run_simulation fC fS fE n k x0).length = n ∧
    (∀ r, (run_simulation fC fS fE n k x0)[0]? = some r → r.x_prev = x0) ∧
    (∀ i r, (run_simulation fC fS fE n k x0)[i]? = some r →
      r.u0 = fC (k + i) r.x_prev ∧ r.y_next = fS (k + i) r.u0 ∧
      r.x_next = fE (k + i) r.y_next) ∧
    (∀ i r r', (run_simulation fC fS fE n k x0)[i]? = some r →
      (run_simulation fC fS fE n k x0)[i + 1]? = some r' →
      r'.x_prev = r.x_next) :=
  ⟨run_simulation_length fC fS fE n k x0,
   fun r hr => run_simulation_head fC fS fE n k x0 r hr,
   fun i r hr => run_simulation_fields fC fS fE n k x0 i r hr,
   fun i r r' hr hr' => run_simulation_chain fC fS fE n k x0 i r r' hr hr'⟩

/-- Witness for C9 on a concrete two-cycle run over natural-number
stage functions. -/
theorem c9_closed_loop_cycle_structure_witness :
    (run_simulation (fun k x => x + k) (fun _ u => 2 * u) (fun _ y => y + 1)
      2 0 5).length = 2 ∧
    (⟨5, 5, 10, 11⟩ : CycleRec ℕ ℕ ℕ).x_prev = 5 ∧
    ((⟨11, 12, 24, 25⟩ : CycleRec ℕ ℕ ℕ).u0 =
      (fun k x => x + k) (0 + 1) (⟨11, 12, 24, 25⟩ : CycleRec ℕ ℕ ℕ).x_prev ∧
     (⟨11, 12, 24, 25⟩ : CycleRec ℕ ℕ ℕ).y_next =
      (fun _ u => 2 * u) (0 + 1) (⟨11, 12, 24, 25⟩ : CycleRec ℕ ℕ ℕ).u0 ∧
     (⟨11, 12, 24, 25⟩ : CycleRec ℕ ℕ ℕ).x_next =
      (fun _ y => y + 1) (0 + 1) (⟨11, 12, 24, 25⟩ : CycleRec ℕ ℕ ℕ).y_next) ∧
    (⟨11, 12, 24, 25⟩ : CycleRec ℕ ℕ ℕ).x_prev =
      (⟨5, 5, 10, 11⟩ : CycleRec ℕ ℕ ℕ).x_next := by
  have H := c9_closed_loop_cycle_structure (fun k x => x + k) (fun _ u => 2 * u)
    (fun _ y => y + 1) 2 0 5
  exact ⟨H.1, H.2.1 _ rfl, H.2.2.1 1 _ rfl, H.2.2.2 0 _ _ rfl rfl⟩

end MpcCbf
